import Mathlib

/-!
Shallow embedding of the Detection & State Control Pipeline of the
`mogged` repository (src/modules/state_machine.py and
src/modules/detection.py), together with proofs of the spec's testable
properties.

Naming follows the Python source: `BotState.in_battle` is the state the
spec calls "InEncounter", `BotState.idle` is "Idle", and so on.
External library calls (screen capture, OpenCV pixel arithmetic,
Tesseract OCR, `imagehash.phash`) are modelled at their interface
boundary: each poll or classify call receives the outcome of the
external calls as an explicit argument, with `Option` encoding the
possibility that the external call raises an exception.
-/

/-- The `BotState` enum of src/modules/state_machine.py. -/
inductive BotState where
  | idle
  | farming
  | in_battle
  | capturing
  | paused
  | stopped
deriving DecidableEq, Repr

/-- The `.value` string of each enum member, as in the Python source. -/
def BotState.value : BotState → String
  | .idle => "idle"
  | .farming => "farming"
  | .in_battle => "in_battle"
  | .capturing => "capturing"
  | .paused => "paused"
  | .stopped => "stopped"

/-- One entry of `state_history`: the dict
`{timestamp, from, to, reason}` appended by `transition_to`.  The
source stores the `.value` strings of the states. -/
structure TransitionRecord where
  timestamp : String
  from_state : String
  to_state : String
  reason : String
deriving DecidableEq, Repr

/-- A record of one callback invocation performed during
`transition_to`.  `state_at_invocation` is the value of
`current_state` at the moment the callback runs; callbacks themselves
are opaque side effects and are identified by the `Nat` stored in the
registry. -/
structure TransitionEvent where
  key : String
  state_at_invocation : BotState
deriving DecidableEq, Repr

/-- The `StateMachine` object state: fields set in
`StateMachine.__init__`.  The callback dict and the transition dict
are association lists with most-recent-binding-first lookup, which
matches Python dict read semantics for the operations the source
performs. -/
structure StateMachine where
  current_state : BotState
  previous_state : Option BotState
  state_history : List TransitionRecord
  transition_callbacks : List (String × Nat)
  valid_transitions : List (BotState × List BotState)
deriving DecidableEq, Repr

/-- The transition dict built in `StateMachine.__init__` (lines 47-54
of state_machine.py). -/
def defaultTransitions : List (BotState × List BotState) :=
  [ (.idle, [.farming, .stopped])
  , (.farming, [.in_battle, .paused, .stopped])
  , (.in_battle, [.farming, .capturing, .paused, .stopped])
  , (.capturing, [.farming, .paused, .stopped])
  , (.paused, [.farming, .stopped])
  , (.stopped, []) ]

/-- `StateMachine()`: the freshly constructed machine. -/
def initStateMachine : StateMachine :=
  { current_state := .idle
  , previous_state := none
  , state_history := []
  , transition_callbacks := []
  , valid_transitions := defaultTransitions }

/-- `self.valid_transitions.get(state, [])`. -/
def allowedTargets (m : StateMachine) (s : BotState) : List BotState :=
  (m.valid_transitions.lookup s).getD []

/-- `StateMachine.transition_to(new_state, reason)`.  `now` is the
formatted `datetime.now()` timestamp, passed explicitly.  The result
is the returned boolean, the machine after the call, and the list of
callback invocations the call performed (each with the value of
`current_state` at the moment the callback ran: the source invokes the
callback after appending the history record and before assigning
`current_state`). -/
def transition_to (m : StateMachine) (new_state : BotState)
    (reason : String) (now : String) :
    Bool × StateMachine × List TransitionEvent :=
  if new_state ∈ allowedTargets m m.current_state then
    let key := m.current_state.value ++ "_to_" ++ new_state.value
    let record : TransitionRecord :=
      { timestamp := now
      , from_state := m.current_state.value
      , to_state := new_state.value
      , reason := reason }
    let events :=
      if (m.transition_callbacks.lookup key).isSome then
        [⟨key, m.current_state⟩]
      else []
    (true,
     { m with
        previous_state := some m.current_state
        state_history := m.state_history ++ [record]
        current_state := new_state },
     events)
  else
    (false, m, [])

/-- `StateMachine.register_callback(from_state, to_state, callback)`:
stores the callback under the string key; the new binding shadows any
older one, as Python dict assignment does. -/
def register_callback (m : StateMachine) (from_state to_state : BotState)
    (callback : Nat) : StateMachine :=
  { m with
      transition_callbacks :=
        (from_state.value ++ "_to_" ++ to_state.value, callback)
          :: m.transition_callbacks }

/-- `StateMachine.can_transition_to(state)`. -/
def can_transition_to (m : StateMachine) (s : BotState) : Bool :=
  s ∈ allowedTargets m m.current_state

/-- `StateMachine.reset()`. -/
def reset (m : StateMachine) : StateMachine :=
  { m with current_state := .idle, previous_state := none }

/-- Applies a sequence of `transition_to` calls; each call supplies
its target, its reason, and its timestamp. -/
def runTransitions (m : StateMachine) :
    List (BotState × String × String) → StateMachine
  | [] => m
  | c :: rest => runTransitions (transition_to m c.1 c.2.1 c.2.2).2.1 rest

/-- States reachable from `idle` by a path through the static
transition graph. -/
inductive Reachable : BotState → Prop
  | init : Reachable .idle
  | step {s t : BotState} : Reachable s →
      t ∈ (defaultTransitions.lookup s).getD [] → Reachable t

theorem transition_to_valid_transitions (m : StateMachine)
    (t : BotState) (reason now : String) :
    (transition_to m t reason now).2.1.valid_transitions =
      m.valid_transitions := by
  unfold transition_to
  split <;> rfl

theorem transition_to_reachable (m : StateMachine) (t : BotState)
    (reason now : String)
    (hv : m.valid_transitions = defaultTransitions)
    (hr : Reachable m.current_state) :
    Reachable (transition_to m t reason now).2.1.current_state := by
  unfold transition_to
  split
  · next h =>
      exact Reachable.step hr (by rw [allowedTargets, hv] at h; exact h)
  · exact hr

theorem runTransitions_reachable (calls : List (BotState × String × String))
    (m : StateMachine)
    (hv : m.valid_transitions = defaultTransitions)
    (hr : Reachable m.current_state) :
    Reachable (runTransitions m calls).current_state := by
  induction calls generalizing m with
  | nil => exact hr
  | cons c rest ih =>
      exact ih _ ((transition_to_valid_transitions m c.1 c.2.1 c.2.2).trans hv)
        (transition_to_reachable m c.1 c.2.1 c.2.2 hv hr)

/-- C1: after any sequence of `transition_to` calls on a freshly
constructed `StateMachine`, `current_state` is reachable from `idle`
by a path through the static transition graph; the initial state is
`idle` and `stopped` has no outgoing edges. -/
theorem stateMachine_reachability
    (calls : List (BotState × String × String)) :
    Reachable (runTransitions initStateMachine calls).current_state ∧
    initStateMachine.current_state = BotState.idle ∧
    allowedTargets initStateMachine BotState.stopped = [] :=
  ⟨runTransitions_reachable calls initStateMachine rfl Reachable.init,
   rfl, rfl⟩

/-- C2: when the target is not in the current state's outgoing-edge
set, `transition_to` returns `false` and the machine is returned
entirely unchanged (every field: `current_state`, `previous_state`,
`state_history`, `transition_callbacks`, `valid_transitions`), and no
callback is invoked. -/
theorem transition_to_invalid_no_mutation (m : StateMachine)
    (t : BotState) (reason now : String)
    (h : t ∉ allowedTargets m m.current_state) :
    transition_to m t reason now = (false, m, []) := by
  unfold transition_to
  split
  · next hmem => exact absurd hmem h
  · rfl

/-- Witness for C2: from the initial state `idle`, requesting
`capturing` is invalid and mutates nothing. -/
theorem transition_to_invalid_no_mutation_witness :
    BotState.capturing ∉ allowedTargets initStateMachine BotState.idle ∧
    transition_to initStateMachine BotState.capturing "invalid" "00:00:00" =
      (false, initStateMachine, []) :=
  ⟨by decide,
   transition_to_invalid_no_mutation initStateMachine BotState.capturing
     "invalid" "00:00:00" (by decide)⟩

/-- C3: when the target is in the current state's outgoing-edge set,
`transition_to` returns `true`, sets `previous_state` to the old
current state, appends exactly one history record with `from` the old
state and `to` the target, invokes the callback registered for the
(old, target) pair exactly once — while `current_state` still equals
the old state — and sets `current_state` to the target.  The callback
registry and the transition graph are untouched. -/
theorem transition_to_valid_effects (m : StateMachine) (t : BotState)
    (reason now : String)
    (h : t ∈ allowedTargets m m.current_state) :
    (transition_to m t reason now).1 = true ∧
    (transition_to m t reason now).2.1.previous_state =
      some m.current_state ∧
    (transition_to m t reason now).2.1.state_history =
      m.state_history ++
        [⟨now, m.current_state.value, t.value, reason⟩] ∧
    (transition_to m t reason now).2.2 =
      (if (m.transition_callbacks.lookup
            (m.current_state.value ++ "_to_" ++ t.value)).isSome then
        [⟨m.current_state.value ++ "_to_" ++ t.value, m.current_state⟩]
      else []) ∧
    (transition_to m t reason now).2.1.current_state = t ∧
    (transition_to m t reason now).2.1.transition_callbacks =
      m.transition_callbacks ∧
    (transition_to m t reason now).2.1.valid_transitions =
      m.valid_transitions := by
  unfold transition_to
  rw [if_pos h]
  exact ⟨rfl, rfl, rfl, rfl, rfl, rfl, rfl⟩

/-- Witness for C3: the valid transition `idle → farming` on the
initial machine. -/
theorem transition_to_valid_effects_witness :
    BotState.farming ∈ allowedTargets initStateMachine BotState.idle ∧
    ((transition_to initStateMachine BotState.farming "go" "00:00:01").1 = true ∧
     (transition_to initStateMachine BotState.farming "go" "00:00:01").2.1.previous_state =
       some initStateMachine.current_state ∧
     (transition_to initStateMachine BotState.farming "go" "00:00:01").2.1.state_history =
       initStateMachine.state_history ++
         [⟨"00:00:01", initStateMachine.current_state.value,
           BotState.farming.value, "go"⟩] ∧
     (transition_to initStateMachine BotState.farming "go" "00:00:01").2.2 =
       (if (initStateMachine.transition_callbacks.lookup
             (initStateMachine.current_state.value ++ "_to_" ++
               BotState.farming.value)).isSome then
         [⟨initStateMachine.current_state.value ++ "_to_" ++
             BotState.farming.value, initStateMachine.current_state⟩]
       else []) ∧
     (transition_to initStateMachine BotState.farming "go" "00:00:01").2.1.current_state =
       BotState.farming ∧
     (transition_to initStateMachine BotState.farming "go" "00:00:01").2.1.transition_callbacks =
       initStateMachine.transition_callbacks ∧
     (transition_to initStateMachine BotState.farming "go" "00:00:01").2.1.valid_transitions =
       initStateMachine.valid_transitions) :=
  ⟨by decide,
   transition_to_valid_effects initStateMachine BotState.farming
     "go" "00:00:01" (by decide)⟩

/-- C10: `reset()` sets `current_state` to `idle` and clears
`previous_state` from any machine state whatsoever, and changes
nothing else: the history, the callback registry and the transition
graph are untouched.  In particular it applies in state `stopped`,
which has no outgoing edges, so it escapes the terminal state outside
the transition graph. -/
theorem reset_effects (m : StateMachine) :
    (reset m).current_state = BotState.idle ∧
    (reset m).previous_state = none ∧
    (reset m).state_history = m.state_history ∧
    (reset m).transition_callbacks = m.transition_callbacks ∧
    (reset m).valid_transitions = m.valid_transitions ∧
    allowedTargets initStateMachine BotState.stopped = [] :=
  ⟨rfl, rfl, rfl, rfl, rfl, rfl⟩

/-- The `BattleDetector` object state (detection.py lines 20-28):
the consecutive-hit counter and the confirmation threshold, which
`__init__` fixes at 3. -/
structure BattleDetector where
  battle_detected_frames : Nat
  required_consecutive_frames : Nat
deriving DecidableEq, Repr

/-- `BattleDetector(config, screen)`: counter 0, threshold 3. -/
def initBattleDetector : BattleDetector :=
  { battle_detected_frames := 0, required_consecutive_frames := 3 }

/-- `BattleDetector.is_in_battle()`.  The capture and the OpenCV
pixel arithmetic are external calls; `frame` is their outcome:
`some b` means the capture succeeded and the brightness-ratio test
(`white_percentage > 20`) classified the frame raw-positive (`b =
true`) or raw-negative (`b = false`); `none` means an exception was
raised before the classification, taking the `except` branch.  The
result is the returned boolean and the detector after the call. -/
def is_in_battle (d : BattleDetector) (frame : Option Bool) :
    Bool × BattleDetector :=
  match frame with
  | none => (false, d)
  | some is_battle =>
      let frames := if is_battle then d.battle_detected_frames + 1 else 0
      (decide (d.required_consecutive_frames ≤ frames),
       { d with battle_detected_frames := frames })

/-- Runs a sequence of polls; returns the list of returned booleans
and the final detector state. -/
def runDetector (d : BattleDetector) :
    List (Option Bool) → List Bool × BattleDetector
  | [] => ([], d)
  | f :: rest =>
      let r := is_in_battle d f
      let rr := runDetector r.2 rest
      (r.1 :: rr.1, rr.2)

/-- The poll outputs as a function of the running counter alone, for
threshold 3 and all-successful captures. -/
def detOutputs (c : Nat) : List Bool → List Bool
  | [] => []
  | b :: rest =>
      let c2 := if b then c + 1 else 0
      decide (3 ≤ c2) :: detOutputs c2 rest

theorem runDetector_eq_detOutputs (s : List Bool) (c : Nat) :
    (runDetector ⟨c, 3⟩ (s.map some)).1 = detOutputs c s := by
  induction s generalizing c with
  | nil => rfl
  | cons b rest ih =>
      simp only [List.map, runDetector, is_in_battle, detOutputs]
      exact congrArg _ (ih _)

/-- The output at index `i` of a run started at counter `c`, stated
so that positions before the start of the list count as raw-positive
exactly when the starting counter covers them. -/
def okAt (c : Nat) (s : List Bool) (i : Nat) : Prop :=
  (2 ≤ i ∧ s.getD (i - 2) false = true ∧ s.getD (i - 1) false = true ∧
    s.getD i false = true)
  ∨ (i = 1 ∧ 1 ≤ c ∧ s.getD 0 false = true ∧ s.getD 1 false = true)
  ∨ (i = 0 ∧ 2 ≤ c ∧ s.getD 0 false = true)

theorem detOutputs_getD (s : List Bool) (c i : Nat) :
    ((detOutputs c s).getD i false = true) ↔ okAt c s i := by
  induction s generalizing c i with
  | nil =>
      simp [detOutputs, okAt, List.getD]
  | cons b rest ih =>
      match i with
      | 0 =>
          simp only [detOutputs, okAt, List.getD_cons_zero]
          cases b <;> simp
      | 1 =>
          simp only [detOutputs, List.getD_cons_succ]
          rw [ih]
          simp only [okAt, List.getD_cons_zero, List.getD_cons_succ]
          cases b <;> simp
      | 2 =>
          simp only [detOutputs, List.getD_cons_succ]
          rw [ih]
          simp only [okAt, List.getD_cons_zero, List.getD_cons_succ]
          cases b <;> simp
      | (j + 3) =>
          simp only [detOutputs, List.getD_cons_succ]
          rw [ih]
          simp only [okAt]
          have h2 : j + 3 - 2 = j + 1 := by omega
          have h1 : j + 3 - 1 = j + 2 := by omega
          have h2r : j + 2 - 2 = j := by omega
          have h1r : j + 2 - 1 = j + 1 := by omega
          rw [h2, h1, h2r, h1r]
          simp only [List.getD_cons_succ]
          constructor
          · rintro (⟨-, ha, hb, hc⟩ | ⟨h, -⟩ | ⟨h, -⟩)
            · exact Or.inl ⟨by omega, ha, hb, hc⟩
            · omega
            · omega
          · rintro (⟨-, ha, hb, hc⟩ | ⟨h, -⟩ | ⟨h, -⟩)
            · exact Or.inl ⟨by omega, ha, hb, hc⟩
            · omega
            · omega

/-- C4: with confirmation threshold 3 and counter started at 0, the
poll at index `i` returns `true` exactly when the polls at indices
`i-2`, `i-1`, `i` all classified raw-positive — that is, exactly when
a run of 3 consecutive raw-positives ends at `i`.  Hence fewer than 3
consecutive raw-positives followed by a raw-negative never confirm,
and 3 consecutive raw-positives are necessary and sufficient for the
first `true`. -/
theorem battle_confirmation_characterization (s : List Bool) (i : Nat) :
    ((runDetector initBattleDetector (s.map some)).1.getD i false = true) ↔
      (2 ≤ i ∧ s.getD (i - 2) false = true ∧ s.getD (i - 1) false = true ∧
        s.getD i false = true) := by
  rw [show initBattleDetector = ⟨0, 3⟩ from rfl,
    runDetector_eq_detOutputs, detOutputs_getD]
  unfold okAt
  constructor
  · rintro (h | ⟨-, h, -⟩ | ⟨-, h, -⟩)
    · exact h
    · omega
    · omega
  · exact Or.inl

/-- C5 counterexample: four consecutive raw-positive polls from the
initial detector drive `battle_detected_frames` to 4, strictly above
the threshold 3 — the counter does not saturate. -/
theorem battle_counter_exceeds_threshold :
    (runDetector initBattleDetector
        [some true, some true, some true, some true]).2.battle_detected_frames = 4 ∧
    ¬ ((runDetector initBattleDetector
        [some true, some true, some true, some true]).2.battle_detected_frames ≤
      initBattleDetector.required_consecutive_frames) := by
  constructor
  · rfl
  · decide

/-- C5 (amended): once the counter has reached the threshold, every
further raw-positive poll returns `true`; the counter does not
saturate but keeps incrementing on each raw-positive (and resets only
on a raw-negative), without wrapping. -/
theorem battle_stays_confirmed (d : BattleDetector)
    (hthr : d.required_consecutive_frames = 3)
    (hc : 3 ≤ d.battle_detected_frames) :
    (is_in_battle d (some true)).1 = true ∧
    (is_in_battle d (some true)).2.battle_detected_frames =
      d.battle_detected_frames + 1 ∧
    (is_in_battle d (some false)).2.battle_detected_frames = 0 := by
  refine ⟨?_, rfl, rfl⟩
  simp only [is_in_battle, if_pos rfl, hthr]
  simp
  omega

/-- Witness for the amended C5: the detector reached by three
raw-positive polls. -/
theorem battle_stays_confirmed_witness :
    (runDetector initBattleDetector
        [some true, some true, some true]).2.required_consecutive_frames = 3 ∧
    3 ≤ (runDetector initBattleDetector
        [some true, some true, some true]).2.battle_detected_frames ∧
    ((is_in_battle (runDetector initBattleDetector
        [some true, some true, some true]).2 (some true)).1 = true ∧
     (is_in_battle (runDetector initBattleDetector
        [some true, some true, some true]).2 (some true)).2.battle_detected_frames =
       (runDetector initBattleDetector
        [some true, some true, some true]).2.battle_detected_frames + 1 ∧
     (is_in_battle (runDetector initBattleDetector
        [some true, some true, some true]).2 (some false)).2.battle_detected_frames = 0) :=
  ⟨by decide, by decide,
   battle_stays_confirmed _ (by decide) (by decide)⟩

/-- C6: a poll whose capture (or any step before the classification)
raises an exception returns `false` and leaves the detector — in
particular the consecutive-hit counter — exactly as it was, so the
next successful poll behaves as if the failed poll never happened. -/
theorem battle_capture_failure_preserves_counter (d : BattleDetector) :
    is_in_battle d none = (false, d) ∧
    (∀ b : Bool, is_in_battle (is_in_battle d none).2 (some b) =
      is_in_battle d (some b)) :=
  ⟨rfl, fun _ => rfl⟩

/-- The character class of the regex `[^A-Za-z]` in
`PokemonIdentifier._clean_pokemon_name`: a character survives the
substitution exactly when it is an ASCII letter. -/
def isAsciiLetter (c : Char) : Bool :=
  (('A' ≤ c) && (c ≤ 'Z')) || (('a' ≤ c) && (c ≤ 'z'))

/-- Python `str.lower()` on the characters that can survive the
regex (ASCII): uppercase letters shift by 32, the rest are fixed. -/
def pythonLower (c : Char) : Char :=
  if ('A' ≤ c) && (c ≤ 'Z') then Char.ofNat (c.toNat + 32) else c

/-- The whitespace class of Python `str.strip()`. -/
def isPythonSpace (c : Char) : Bool :=
  (c = ' ') || (c = '\t') || (c = '\n') || (c = '\r') ||
    (c = Char.ofNat 11) || (c = Char.ofNat 12)

/-- Python `str.strip()` on a character list. -/
def pythonStrip (l : List Char) : List Char :=
  ((l.dropWhile isPythonSpace).reverse.dropWhile isPythonSpace).reverse

/-- `PokemonIdentifier._clean_pokemon_name(raw_text)` (detection.py
lines 141-158): `None` on a falsy (empty) input, else keep only the
ASCII letters (`re.sub` with `[^A-Za-z]`), lowercase, strip, and
accept only a result of length at least 3. -/
def clean_pokemon_name (raw_text : String) : Option String :=
  if raw_text = "" then none
  else
    let clean := pythonStrip ((raw_text.data.filter isAsciiLetter).map pythonLower)
    if 3 ≤ clean.length then some (String.mk clean) else none

/-- C7 evaluation: the code maps `"MANKEY\nLV. 5"` to `"mankeylv"`,
not to `"mankey"` — the letters of `"LV"` survive the regex, although
the function's own docstring says `"LV"`/`"LV."` are removed.  The
same holds when `\n` is read as the literal two characters
backslash-n (result `"mankeynlv"`).  The `"AB"` and `""` cases behave
as claimed. -/
theorem clean_pokemon_name_eval :
    clean_pokemon_name "MANKEY\nLV. 5" = some "mankeylv" ∧
    clean_pokemon_name "MANKEY\\nLV. 5" = some "mankeynlv" ∧
    clean_pokemon_name "AB" = none ∧
    clean_pokemon_name "" = none ∧
    clean_pokemon_name "MANKEY\nLV. 5" ≠ some "mankey" := by
  refine ⟨rfl, rfl, rfl, rfl, ?_⟩
  decide

/-- The `SpriteComparator` object state (detection.py lines 164-171):
the configured hash threshold (default 5), the reference directory,
and the hash cache (`_hash_cache` in the source), an association list
with most-recent-binding-first lookup, matching Python dict reads. -/
structure SpriteComparator where
  hash_threshold : Int
  sprite_dir : String
  hash_cache : List (String × Nat)
deriving Repr

/-- `SpriteComparator(config, screen)` with the configured threshold. -/
def initSpriteComparator (threshold : Int) : SpriteComparator :=
  { hash_threshold := threshold
  , sprite_dir := "assets/base_sprites/"
  , hash_cache := [] }

/-- The outcomes of the external calls one `is_pokemon_skinned` call
performs.  Images and hash values are abstract `Nat` identifiers;
`phash` is the (deterministic) `imagehash.phash` library function and
`hash_diff` the Hamming distance between two hash values, which the
`imagehash` library returns as a non-negative integer.  `none` in
`open_base` or `captured` means the corresponding call raised. -/
structure CallEnv where
  exists_base : Bool
  open_base : Option Nat
  captured : Option Nat
  phash : Nat → Nat
  hash_diff : Nat → Nat → Nat
  use_ssim : Bool
  ssim_confirm : Bool

/-- `SpriteComparator._get_or_compute_hash(path, image)`: returns the
cached hash when present, else computes, stores and returns it.  The
third component instruments whether a hash computation happened. -/
def get_or_compute_hash (cache : List (String × Nat)) (path : String)
    (img : Nat) (phash : Nat → Nat) : Nat × List (String × Nat) × Bool :=
  match cache.lookup path with
  | some h => (h, cache, false)
  | none => (phash img, (path, phash img) :: cache, true)

/-- `SpriteComparator.is_pokemon_skinned(pokemon_name)` (detection.py
lines 173-218).  Returns the `(is_skin, difference)` verdict (the
float difference is the exact integer Hamming distance, modelled in
`Int`, with `-1` for the `-1.0` sentinel), the comparator after the
call, and the instrumented number of reference-hash computations the
call performed. -/
def is_pokemon_skinned (c : SpriteComparator) (env : CallEnv)
    (pokemon_name : String) : (Bool × Int) × SpriteComparator × Nat :=
  let base_path := c.sprite_dir ++ pokemon_name ++ ".png"
  if env.exists_base = false then
    ((false, -1), c, 0)
  else
    match env.open_base with
    | none => ((false, -1), c, 0)
    | some base_img =>
      match env.captured with
      | none => ((false, -1), c, 0)
      | some cap_img =>
        let r := get_or_compute_hash c.hash_cache base_path base_img env.phash
        let captured_hash := env.phash cap_img
        let difference : Nat := env.hash_diff r.1 captured_hash
        let is_skin := decide (c.hash_threshold < (difference : Int))
        let c2 := { c with hash_cache := r.2.1 }
        let computes : Nat := if r.2.2 then 1 else 0
        if is_skin && env.use_ssim then
          ((env.ssim_confirm, (difference : Int)), c2, computes)
        else
          ((is_skin, (difference : Int)), c2, computes)

/-- C8: the verdict `(false, -1.0)` is returned exactly when the
reference file is missing or an exception is raised during the
comparison; in every other case the difference score is the
non-negative Hamming distance, so a negative difference is the single
inconclusive signal and `(false, -1.0)` never results from a
successful comparison. -/
theorem classify_sentinel_characterization (c : SpriteComparator)
    (env : CallEnv) (pokemon_name : String) :
    ((is_pokemon_skinned c env pokemon_name).1 = (false, -1) ↔
      (env.exists_base = false ∨ env.open_base = none ∨
        env.captured = none)) ∧
    ((env.exists_base = false ∨ env.open_base = none ∨
        env.captured = none) ∨
      0 ≤ (is_pokemon_skinned c env pokemon_name).1.2) := by
  unfold is_pokemon_skinned
  rcases henv : env.exists_base with _ | _
  · simp
  · rcases hopen : env.open_base with _ | base_img
    · simp
    · rcases hcap : env.captured with _ | cap_img
      · simp
      · simp only [Bool.true_eq_false, if_false]
        constructor
        · constructor
          · intro h
            exfalso
            revert h
            split <;>
              · intro h
                have h2 := congrArg Prod.snd h
                simp at h2
          · rintro (h | h | h) <;> simp_all
        · right
          split <;> simp

/-- C9: two consecutive `is_pokemon_skinned` calls with the same
identifier, both successful (reference present, no exception), and the
reference path not yet cached: the first call computes the reference
hash exactly once and stores it in the cache under the reference path;
the second call performs no hash computation, retrieves the stored
value — the very hash the first call computed — and leaves the cache
unchanged. -/
theorem classify_caches_reference_hash (c : SpriteComparator)
    (env1 env2 : CallEnv) (pokemon_name : String) (i1 i2 x1 x2 : Nat)
    (h1e : env1.exists_base = true) (h1o : env1.open_base = some i1)
    (h1c : env1.captured = some x1)
    (h2e : env2.exists_base = true) (h2o : env2.open_base = some i2)
    (h2c : env2.captured = some x2)
    (hfresh : c.hash_cache.lookup (c.sprite_dir ++ pokemon_name ++ ".png") =
      none) :
    (is_pokemon_skinned c env1 pokemon_name).2.2 = 1 ∧
    (is_pokemon_skinned c env1 pokemon_name).2.1.hash_cache.lookup
        (c.sprite_dir ++ pokemon_name ++ ".png") = some (env1.phash i1) ∧
    (is_pokemon_skinned (is_pokemon_skinned c env1 pokemon_name).2.1
        env2 pokemon_name).2.2 = 0 ∧
    (get_or_compute_hash
        (is_pokemon_skinned c env1 pokemon_name).2.1.hash_cache
        (c.sprite_dir ++ pokemon_name ++ ".png") i2 env2.phash).1 =
      env1.phash i1 ∧
    (is_pokemon_skinned (is_pokemon_skinned c env1 pokemon_name).2.1
        env2 pokemon_name).2.1.hash_cache =
      (is_pokemon_skinned c env1 pokemon_name).2.1.hash_cache := by
  have hr1 : (is_pokemon_skinned c env1 pokemon_name).2 =
      ({ c with hash_cache :=
          (c.sprite_dir ++ pokemon_name ++ ".png", env1.phash i1)
            :: c.hash_cache }, 1) := by
    simp only [is_pokemon_skinned, h1e, h1o, h1c, get_or_compute_hash,
      hfresh, Bool.true_eq_false, if_false]
    split <;> rfl
  have hc1 : (is_pokemon_skinned c env1 pokemon_name).2.1 =
      { c with hash_cache :=
          (c.sprite_dir ++ pokemon_name ++ ".png", env1.phash i1)
            :: c.hash_cache } := congrArg Prod.fst hr1
  have hn1 : (is_pokemon_skinned c env1 pokemon_name).2.2 = 1 :=
    congrArg Prod.snd hr1
  have hlook : ({ c with hash_cache :=
        (c.sprite_dir ++ pokemon_name ++ ".png", env1.phash i1)
          :: c.hash_cache } : SpriteComparator).hash_cache.lookup
      (c.sprite_dir ++ pokemon_name ++ ".png") = some (env1.phash i1) := by
    simp [List.lookup]
  have hr2 : (is_pokemon_skinned
      ({ c with hash_cache :=
          (c.sprite_dir ++ pokemon_name ++ ".png", env1.phash i1)
            :: c.hash_cache }) env2 pokemon_name).2 =
      ({ c with hash_cache :=
          (c.sprite_dir ++ pokemon_name ++ ".png", env1.phash i1)
            :: c.hash_cache }, 0) := by
    simp only [is_pokemon_skinned, h2e, h2o, h2c, get_or_compute_hash,
      hlook, Bool.true_eq_false, if_false]
    split <;> rfl
  refine ⟨hn1, ?_, ?_, ?_, ?_⟩
  · rw [hc1]
    exact hlook
  · rw [hc1]
    exact congrArg Prod.snd hr2
  · rw [hc1]
    simp only [get_or_compute_hash, hlook]
  · rw [hc1]
    exact congrArg (fun x => x.hash_cache) (congrArg Prod.fst hr2)

/-- A concrete call environment for the caching witness. -/
def witnessEnv : CallEnv :=
  { exists_base := true
  , open_base := some 1
  , captured := some 2
  , phash := fun i => i + 10
  , hash_diff := fun a b => a + b
  , use_ssim := false
  , ssim_confirm := false }

/-- Witness for C9: a fresh comparator and two successful calls on
the identifier `"mankey"`; the first call computes once, the second
not at all and it retrieves the stored hash. -/
theorem classify_caches_reference_hash_witness :
    witnessEnv.exists_base = true ∧
    witnessEnv.open_base = some 1 ∧
    witnessEnv.captured = some 2 ∧
    (initSpriteComparator 5).hash_cache.lookup
      ((initSpriteComparator 5).sprite_dir ++ "mankey" ++ ".png") = none ∧
    (is_pokemon_skinned (initSpriteComparator 5) witnessEnv "mankey").2.2 = 1 ∧
    (is_pokemon_skinned
        (is_pokemon_skinned (initSpriteComparator 5) witnessEnv "mankey").2.1
        witnessEnv "mankey").2.2 = 0 ∧
    (get_or_compute_hash
        (is_pokemon_skinned (initSpriteComparator 5) witnessEnv "mankey").2.1.hash_cache
        ((initSpriteComparator 5).sprite_dir ++ "mankey" ++ ".png") 1
        witnessEnv.phash).1 = witnessEnv.phash 1 :=
  ⟨rfl, rfl, rfl, rfl,
   (classify_caches_reference_hash (initSpriteComparator 5) witnessEnv
      witnessEnv "mankey" 1 1 2 2 rfl rfl rfl rfl rfl rfl rfl).1,
   (classify_caches_reference_hash (initSpriteComparator 5) witnessEnv
      witnessEnv "mankey" 1 1 2 2 rfl rfl rfl rfl rfl rfl rfl).2.2.1,
   (classify_caches_reference_hash (initSpriteComparator 5) witnessEnv
      witnessEnv "mankey" 1 1 2 2 rfl rfl rfl rfl rfl rfl rfl).2.2.2.1⟩
